import Mathlib

/-!
Shallow embedding of the core of `src/src-tauri/src/lib.rs` (the "no-ponto"
work-session tracker): the session-plan computation of `start_work_monitoring`,
the polling loop `monitor_work_completion`, the encrypted credential store
(`encrypt_data` / `decrypt_data` / `get_pontomais_config`), and the
response handling of `fetch_pontomais_hours`.

Conventions of the embedding:
* Times of day are minutes since midnight (`Nat`); instants on the current
  local day are seconds since that day's local midnight (`Int`, may be
  negative or exceed 86400 when arithmetic crosses midnight, exactly as a
  `chrono::DateTime` may move to another calendar day).
* Rust `i64` arithmetic on `chrono::Duration` minutes stays well inside the
  64-bit range for all inputs reachable here, so it is modelled on `Int`;
  `Duration::num_minutes` truncates toward zero, modelled by `Int.tdiv`.
* Byte strings are `List Nat` with every element `< 256`.
-/

namespace NoPonto

/-- Rust `WorkStatus` (`remaining_minutes: i64, is_complete: bool, end_time: String`). -/
structure WorkStatus where
  remaining_minutes : Int
  is_complete : Bool
  end_time : String
deriving Repr, DecidableEq

/-! ## Time-of-day parsing: `NaiveTime::parse_from_str(s, "%H:%M")`

chrono scans one or two digits for `%H`, a literal `:`, one or two digits
for `%M`, requires the input exhausted (else `TOO_LONG`) and the components
in range (hour `≤ 23`, minute `≤ 59`, else `OUT_OF_RANGE`).  All failure
kinds collapse to `none`, since the Rust caller maps every parse error to a
`String` error with `map_err`. -/

/-- One decimal digit, as scanned by chrono's numeric parser. -/
def digit? (c : Char) : Option Nat :=
  if '0' ≤ c ∧ c ≤ '9' then some (c.toNat - 48) else none

/-- Scan at least one and at most two decimal digits (chrono `scan::number(s, 1, 2)`). -/
def scanNum2 : List Char → Option (Nat × List Char)
  | [] => none
  | c :: rest =>
    match digit? c with
    | none => none
    | some d =>
      match rest with
      | [] => some (d, [])
      | c2 :: rest2 =>
        match digit? c2 with
        | none => some (d, rest)
        | some d2 => some (d * 10 + d2, rest2)

/-- `NaiveTime::parse_from_str(s, "%H:%M")`, returning minutes since midnight. -/
def parseHHMM (s : String) : Option Nat :=
  match scanNum2 s.data with
  | none => none
  | some (h, rest) =>
    match rest with
    | ':' :: rest2 =>
      match scanNum2 rest2 with
      | some (m, []) => if h ≤ 23 ∧ m ≤ 59 then some (h * 60 + m) else none
      | _ => none
    | _ => none

/-! ## Formatting an instant with `"%H:%M"` -/

/-- A decimal digit character. -/
def digitChar (n : Nat) : Char := Char.ofNat (48 + n)

/-- Zero-padded two-digit decimal rendering (chrono `%H` / `%M`). -/
def pad2 (n : Nat) : String := ⟨[digitChar (n / 10 % 10), digitChar (n % 10)]⟩

/-- `DateTime::format("%H:%M")` for an instant given in seconds relative to the
current day's local midnight: chrono renders the hour and minute of the
calendar day the instant falls on. -/
def formatHHMM (secs : Int) : String :=
  let m := (Int.emod secs 86400).toNat / 60
  pad2 (m / 60) ++ ":" ++ pad2 (m % 60)

/-! ## `start_work_monitoring` -/

/-- Outcome of one call to `start_work_monitoring`: the new contents of the
shared status slot, the `expected_end` handed to a spawned
`monitor_work_completion` task (`none` when no task is spawned), and the
command result. -/
structure StartResult where
  newState : Option WorkStatus
  spawned : Option Int
  result : Except String Unit
deriving Repr

/-- The Rust daily target: `8 * 60` minutes. -/
def total_target_minutes : Int := 8 * 60

/-- `start_work_monitoring(app, state, inicio1, fim1, inicio2)` as a pure
state transformer on the shared slot.  Parses the three `HH:MM` strings in
order (failing fast with the Rust error message), anchors them on the current
day (instants in seconds since local midnight), computes
`period1_minutes = (end1_dt - start1_dt).num_minutes()`,
`remaining_from_start2 = 480 - period1_minutes`,
`expected_end = start2_dt + Duration::minutes(remaining_from_start2)`,
stores the initial `WorkStatus` and spawns the monitor with `expected_end`. -/
def start_work_monitoring (st : Option WorkStatus)
    (inicio1 fim1 inicio2 : String) : StartResult :=
  match parseHHMM inicio1 with
  | none => ⟨st, none, .error "Error parsing inicio1"⟩
  | some s1 =>
    match parseHHMM fim1 with
    | none => ⟨st, none, .error "Error parsing fim1"⟩
    | some e1 =>
      match parseHHMM inicio2 with
      | none => ⟨st, none, .error "Error parsing inicio2"⟩
      | some s2 =>
        let start1Secs : Int := (s1 : Int) * 60
        let end1Secs : Int := (e1 : Int) * 60
        let start2Secs : Int := (s2 : Int) * 60
        let period1_minutes : Int := Int.tdiv (end1Secs - start1Secs) 60
        let remaining_from_start2 : Int := total_target_minutes - period1_minutes
        let expected_end : Int := start2Secs + remaining_from_start2 * 60
        let work_status : WorkStatus :=
          ⟨remaining_from_start2, false, formatHHMM expected_end⟩
        ⟨some work_status, some expected_end, .ok ()⟩

/-! ## `monitor_work_completion`

The loop body is modelled as one pure tick; the side effects toward the
Tauri host (system notification, overlay notification, showing / focusing /
unminimizing the main window, `app.emit`) are recorded as an event list in
the order the Rust code issues them.  Their results are discarded by the
source (`let _ = ...`), so no result channel is modelled. -/

/-- One observable side effect of the monitor loop toward the host. -/
inductive MonitorEvent
  | systemNotification (title message : String)
  | overlayNotification (title message : String)
  | surfaceMainWindow
  | emitWorkComplete
  | emitWorkAlmostComplete (remaining : Int)
deriving Repr, DecidableEq

/-- Title and body of the completion alert. -/
def completeTitle : String := "🎉 Jornada Completa!"

/-- Completion alert body. -/
def completeMessage : String :=
  "Parabéns! Você completou suas 8 horas de trabalho. Tenha um ótimo resto do dia!"

/-- Title of the almost-done alert. -/
def warnTitle : String := "⏰ Quase Acabando!"

/-- `format!("Faltam apenas {} minutos para completar sua jornada!", remaining)`. -/
def warnMessage (remaining : Int) : String :=
  "Faltam apenas " ++ toString remaining ++ " minutos para completar sua jornada!"

/-- The side effects of the `remaining <= 0` branch, in source order. -/
def completionEvents : List MonitorEvent :=
  [.systemNotification completeTitle completeMessage,
   .overlayNotification completeTitle completeMessage,
   .surfaceMainWindow,
   .emitWorkComplete]

/-- The side effects of the `remaining <= 3 && remaining > 0` branch, in source order. -/
def warningEvents (remaining : Int) : List MonitorEvent :=
  [.systemNotification warnTitle (warnMessage remaining),
   .overlayNotification warnTitle (warnMessage remaining),
   .surfaceMainWindow,
   .emitWorkAlmostComplete remaining]

/-- Result of one iteration of the `loop` in `monitor_work_completion`:
the new contents of the shared slot, the events issued during the
iteration, and whether the iteration ended in `break`. -/
structure TickOut where
  state : Option WorkStatus
  events : List MonitorEvent
  done : Bool
deriving Repr, DecidableEq

/-- One iteration of `monitor_work_completion`'s loop, at wall-clock time
`now` (seconds since the session day's local midnight).  Computes
`remaining = (end_time - now).num_minutes()`, updates the shared status in
place when one is present (`if let Some(ref mut status)`), then either runs
the completion branch and breaks, or the warning branch, or neither. -/
def monitorTick (endSecs now : Int) (st : Option WorkStatus) : TickOut :=
  let remaining : Int := Int.tdiv (endSecs - now) 60
  let st' : Option WorkStatus :=
    match st with
    | some status => some { status with
        remaining_minutes := max remaining 0,
        is_complete := decide (remaining ≤ 0) }
    | none => none
  if remaining ≤ 0 then
    ⟨st', completionEvents, true⟩
  else if remaining ≤ 3 then
    ⟨st', warningEvents remaining, false⟩
  else
    ⟨st', [], false⟩

/-- The monitor loop run over a finite prefix `nows` of the wall-clock
sample sequence (one sample per 60-second sleep).  Stops early when a tick
breaks; the returned list holds the events of each executed tick. -/
def runMonitor (endSecs : Int) (nows : List Int) (st : Option WorkStatus) :
    Option WorkStatus × List (List MonitorEvent) :=
  match nows with
  | [] => (st, [])
  | now :: rest =>
    let t := monitorTick endSecs now st
    if t.done then (t.state, [t.events])
    else
      let r := runMonitor endSecs rest t.state
      (r.1, t.events :: r.2)

/-! ## `get_work_status` and `stop_work_monitoring` -/

/-- `get_work_status`: locks the shared slot and returns a clone of its
contents; the slot itself is not modified. -/
def get_work_status (st : Option WorkStatus) : Option WorkStatus := st

/-- `stop_work_monitoring`: prints a line and returns `Ok(())`; it touches
neither the shared slot nor any spawned task. -/
def stop_work_monitoring : Except String Unit := .ok ()

/-! ## The operations that can touch the shared status slot -/

/-- System state: the shared `Arc<Mutex<Option<WorkStatus>>>` slot plus the
`expected_end` instants of the monitor tasks spawned so far. -/
structure SysState where
  slot : Option WorkStatus
  tasks : List Int
deriving Repr

/-- Any operation of the program that can read or write the shared slot. -/
inductive Op
  | startMonitoring (inicio1 fim1 inicio2 : String)
  | tick (endSecs now : Int)
  | getStatus
  | stopMonitoring

/-- Effect of each operation on the system state: `start_work_monitoring`
replaces the slot and spawns a task on success (leaving both alone on a
parse error), a monitor tick rewrites an existing status,
`get_work_status` and `stop_work_monitoring` write nothing. -/
def applyOp (σ : SysState) : Op → SysState
  | .startMonitoring i1 f1 i2 =>
    let r := start_work_monitoring σ.slot i1 f1 i2
    ⟨r.newState, σ.tasks ++ (match r.spawned with | some e => [e] | none => [])⟩
  | .tick endSecs now => ⟨(monitorTick endSecs now σ.slot).state, σ.tasks⟩
  | .getStatus => ⟨get_work_status σ.slot, σ.tasks⟩
  | .stopMonitoring => σ

/-! ## Base64 (`base64::engine::general_purpose::STANDARD`)

Standard alphabet with `=` padding, modelled over byte lists; characters are
their ASCII codes.  Decoding rejects non-alphabet characters, lengths that
are not a multiple of four, and (like the strict default engine) non-zero
trailing bits before the padding. -/

/-- The standard base64 alphabet: sixtet value to ASCII code. -/
def b64enc (n : Nat) : Nat :=
  if n < 26 then 65 + n
  else if n < 52 then 97 + (n - 26)
  else if n < 62 then 48 + (n - 52)
  else if n = 62 then 43
  else 47

/-- Inverse alphabet lookup: ASCII code to sixtet value. -/
def b64dec (c : Nat) : Option Nat :=
  if 65 ≤ c ∧ c ≤ 90 then some (c - 65)
  else if 97 ≤ c ∧ c ≤ 122 then some (c - 97 + 26)
  else if 48 ≤ c ∧ c ≤ 57 then some (c - 48 + 52)
  else if c = 43 then some 62
  else if c = 47 then some 63
  else none

/-- `STANDARD.encode`: three input bytes per four output characters, the
final block padded with `=` (ASCII 61). -/
def base64Encode : List Nat → List Nat
  | [] => []
  | [b0] => [b64enc (b0 / 4), b64enc (b0 % 4 * 16), 61, 61]
  | [b0, b1] => [b64enc (b0 / 4), b64enc (b0 % 4 * 16 + b1 / 16),
                 b64enc (b1 % 16 * 4), 61]
  | b0 :: b1 :: b2 :: rest =>
    b64enc (b0 / 4) :: b64enc (b0 % 4 * 16 + b1 / 16) ::
    b64enc (b1 % 16 * 4 + b2 / 64) :: b64enc (b2 % 64) :: base64Encode rest

/-- `STANDARD.decode`: four characters per block, padding only in the final
block, canonical (zero) trailing bits required. -/
def base64Decode : List Nat → Option (List Nat)
  | [] => some []
  | c0 :: c1 :: c2 :: c3 :: rest =>
    match b64dec c0, b64dec c1 with
    | some s0, some s1 =>
      if c2 = 61 ∧ c3 = 61 ∧ rest = [] then
        if s1 % 16 = 0 then some [s0 * 4 + s1 / 16] else none
      else if c3 = 61 ∧ rest = [] then
        match b64dec c2 with
        | some s2 =>
          if s2 % 4 = 0 then some [s0 * 4 + s1 / 16, s1 % 16 * 16 + s2 / 4]
          else none
        | none => none
      else
        match b64dec c2, b64dec c3 with
        | some s2, some s3 =>
          match base64Decode rest with
          | some bs =>
            some ((s0 * 4 + s1 / 16) :: (s1 % 16 * 16 + s2 / 4) ::
                  (s2 % 4 * 64 + s3) :: bs)
          | none => none
        | _, _ => none
    | _, _ => none
  | _ => none

/-! ## The AEAD boundary (`aes_gcm::Aes256Gcm`)

The cipher itself lives in the external `aes_gcm` crate, outside this
repository; only its interface contract is modelled: encryption of a byte
plaintext under a 12-byte nonce yields a byte ciphertext (with tag), and
decryption under the same nonce and key inverts it.  `encrypt_data` /
`decrypt_data` below are parametric in such a cipher. -/

/-- Interface contract of an AEAD cipher under the program's fixed key:
`encrypt nonce pt` is the tagged ciphertext, `decrypt nonce ct` recovers the
plaintext or fails (tag mismatch). -/
structure AeadCipher where
  encrypt : List Nat → List Nat → List Nat
  decrypt : List Nat → List Nat → Option (List Nat)
  decrypt_encrypt : ∀ nonce pt, (∀ b ∈ pt, b < 256) →
    decrypt nonce (encrypt nonce pt) = some pt
  encrypt_bytes : ∀ nonce pt, (∀ b ∈ pt, b < 256) →
    ∀ b ∈ encrypt nonce pt, b < 256

/-! ## `encrypt_data` / `decrypt_data`

Plaintext strings are represented by their UTF-8 byte sequences
(`data.as_bytes()` on the way in, `String::from_utf8` on the way out), so
both functions work on byte lists.  The error values mirror, one for one,
the `Err` branches of the Rust functions. -/

/-- The distinct error cases of `decrypt_data` (and the cipher-construction
case shared with `encrypt_data`), one constructor per Rust `Err` string. -/
inductive CredError
  /-- "Failed to create cipher: …" -/
  | cipherCreateFailed
  /-- "Base64 decode failed: …" -/
  | base64DecodeFailed
  /-- "Invalid encrypted data" (decoded blob shorter than the 12-byte nonce) -/
  | invalidEncryptedData
  /-- "Decryption failed: …" (authentication-tag mismatch) -/
  | decryptionFailed
  /-- "UTF-8 conversion failed: …" -/
  | utf8ConversionFailed
deriving Repr, DecidableEq

/-- `encrypt_data(data)`: encrypts under the fixed key with the 12 nonce
bytes drawn from `OsRng` (passed here as the `nonce` argument), prepends the
nonce to the ciphertext and base64-encodes the result.  Cipher construction
from the fixed 32-byte key and AES-GCM encryption cannot fail, so the Rust
`Result` is always `Ok`. -/
def encrypt_data (C : AeadCipher) (nonce : List Nat) (data : List Nat) : List Nat :=
  base64Encode (nonce ++ C.encrypt nonce data)

/-- `decrypt_data(encrypted_data)`: base64-decodes, requires at least the
12-byte nonce, splits it off (`split_at(12)`) and decrypts the remainder;
the returned plaintext is the UTF-8 byte sequence of the Rust `String`. -/
def decrypt_data (C : AeadCipher) (encrypted_data : List Nat) :
    Except CredError (List Nat) :=
  match base64Decode encrypted_data with
  | none => .error .base64DecodeFailed
  | some data =>
    if data.length < 12 then .error .invalidEncryptedData
    else
      match C.decrypt (data.take 12) (data.drop 12) with
      | none => .error .decryptionFailed
      | some plaintext => .ok plaintext

/-! ## `get_pontomais_config` -/

/-- A value found in the `tauri_plugin_store` store under
`"pontomais_config"`: either a JSON string (`Value::as_str` succeeds) or
some other JSON value. -/
inductive StoreValue
  | str (s : List Nat)
  | nonString
deriving Repr

/-- `get_pontomais_config`: reads the stored value; when a string blob is
present its decryption result (success or error) is returned unchanged
(`decrypt_data(encrypted_str)?`), otherwise the empty string. -/
def get_pontomais_config (C : AeadCipher) (stored : Option StoreValue) :
    Except CredError (List Nat) :=
  match stored with
  | some (.str s) => decrypt_data C s
  | some .nonString => .ok []
  | none => .ok []

/-! ## `fetch_pontomais_hours`: response handling

The network transport and the JSON parser (`serde_json`) are external; the
embedding takes the HTTP status code, the raw body text, and the result of
parsing the body into `TimeCardResponse` (exactly the `Option` shape of
`serde_json::from_str::<TimeCardResponse>`). -/

/-- Rust `TimeCard { time: String }`. -/
structure TimeCard where
  time : String
deriving Repr, DecidableEq

/-- Rust `WorkDay { time_cards: Vec<TimeCard> }`. -/
structure WorkDay where
  time_cards : List TimeCard
deriving Repr, DecidableEq

/-- Rust `TimeCardResponse { work_days: Vec<WorkDay> }`. -/
structure TimeCardResponse where
  work_days : List WorkDay
deriving Repr, DecidableEq

/-- The error cases of the response-handling tail of
`fetch_pontomais_hours`. -/
inductive FetchError
  /-- `format!("API request failed with status {}: {}", status, response_text)` -/
  | apiError (status : Nat) (body : String)
  /-- "Failed to parse JSON response: …" -/
  | parseJsonFailed
deriving Repr, DecidableEq

/-- `reqwest::StatusCode::is_success()`: `2xx`. -/
def statusIsSuccess (status : Nat) : Bool := 200 ≤ status ∧ status < 300

/-- The part of `fetch_pontomais_hours` from `let status = response.status()`
on: on a non-success status, fail with the status and raw body; otherwise
parse the body and collect the `time` of every card of the first work day
(an empty vector when there is none). -/
def fetch_pontomais_hours (status : Nat) (responseText : String)
    (parsed : Option TimeCardResponse) : Except FetchError (List String) :=
  if ¬ statusIsSuccess status then
    .error (.apiError status responseText)
  else
    match parsed with
    | none => .error .parseJsonFailed
    | some r =>
      .ok ((r.work_days.head?.map (fun wd => wd.time_cards.map (·.time))).getD [])

/-! ## Helper lemmas -/

theorem b64dec_b64enc : ∀ n, n < 64 → b64dec (b64enc n) = some n := by decide

theorem b64enc_ne_61 : ∀ n, n < 64 → b64enc n ≠ 61 := by decide

/-- The base64 codec round-trips on byte lists. -/
theorem base64_decode_encode :
    ∀ bs : List Nat, (∀ b ∈ bs, b < 256) →
      base64Decode (base64Encode bs) = some bs
  | [], _ => rfl
  | [b0], h => by
    have hb0 : b0 < 256 := h b0 (by simp)
    simp only [base64Encode, base64Decode,
      b64dec_b64enc (b0 / 4) (by omega),
      b64dec_b64enc (b0 % 4 * 16) (by omega)]
    simp only [Nat.mul_mod_left, and_self, if_true, reduceIte,
      Option.some.injEq, List.cons.injEq, and_true]
    omega
  | [b0, b1], h => by
    have hb0 : b0 < 256 := h b0 (by simp)
    have hb1 : b1 < 256 := h b1 (by simp)
    simp only [base64Encode, base64Decode,
      b64dec_b64enc (b0 / 4) (by omega),
      b64dec_b64enc (b0 % 4 * 16 + b1 / 16) (by omega),
      b64dec_b64enc (b1 % 16 * 4) (by omega)]
    rw [if_neg (by simp [b64enc_ne_61 (b1 % 16 * 4) (by omega)])]
    simp only [and_self, if_true, reduceIte, Nat.mul_mod_left,
      Option.some.injEq, List.cons.injEq, and_true]
    omega
  | b0 :: b1 :: b2 :: rest, h => by
    have hb0 : b0 < 256 := h b0 (by simp)
    have hb1 : b1 < 256 := h b1 (by simp)
    have hb2 : b2 < 256 := h b2 (by simp)
    have ih := base64_decode_encode rest (fun b hb => h b (by simp [hb]))
    simp only [base64Encode, base64Decode,
      b64dec_b64enc (b0 / 4) (by omega),
      b64dec_b64enc (b0 % 4 * 16 + b1 / 16) (by omega),
      b64dec_b64enc (b1 % 16 * 4 + b2 / 64) (by omega),
      b64dec_b64enc (b2 % 64) (by omega)]
    rw [if_neg (by
      intro hcon
      exact b64enc_ne_61 (b1 % 16 * 4 + b2 / 64) (by omega) hcon.1)]
    rw [if_neg (by
      intro hcon
      exact b64enc_ne_61 (b2 % 64) (by omega) hcon.1)]
    rw [ih]
    simp only [Option.some.injEq, List.cons.injEq]
    exact ⟨by omega, by omega, by omega, trivial⟩

/-- The trivial instantiation of the AEAD interface (used to evaluate the
generic theorems at concrete inputs). -/
def idCipher : AeadCipher where
  encrypt := fun _ pt => pt
  decrypt := fun _ ct => some ct
  decrypt_encrypt := fun _ _ _ => rfl
  encrypt_bytes := fun _ _ h => h

/-- An instantiation of the AEAD interface with a 16-byte zero tag, so that
tampered ciphertexts are rejected (used to evaluate the failure branches at
concrete inputs). -/
def tagCipher : AeadCipher where
  encrypt := fun _ pt => pt ++ List.replicate 16 0
  decrypt := fun _ ct =>
    if 16 ≤ ct.length ∧ ct.drop (ct.length - 16) = List.replicate 16 0
    then some (ct.take (ct.length - 16)) else none
  decrypt_encrypt := by
    intro nonce pt _
    have hlen : (pt ++ List.replicate 16 0).length - 16 = pt.length := by
      simp
    dsimp only
    rw [if_pos ⟨by simp, by rw [hlen]; exact List.drop_left pt _⟩,
      hlen, List.take_left]
  encrypt_bytes := by
    intro nonce pt h b hb
    rcases List.mem_append.mp hb with hp | hr
    · exact h b hp
    · have := List.eq_of_mem_replicate hr
      omega

/-- The successful arm of `start_work_monitoring`, as one equation. -/
theorem start_work_monitoring_ok (st : Option WorkStatus) (i1 f1 i2 : String)
    (s1 e1 s2 : Nat) (h1 : parseHHMM i1 = some s1) (h2 : parseHHMM f1 = some e1)
    (h3 : parseHHMM i2 = some s2) :
    start_work_monitoring st i1 f1 i2 =
      ⟨some ⟨480 - ((e1 : Int) - s1), false,
          formatHHMM ((s2 : Int) * 60 + (480 - ((e1 : Int) - s1)) * 60)⟩,
        some ((s2 : Int) * 60 + (480 - ((e1 : Int) - s1)) * 60),
        .ok ()⟩ := by
  have htdiv : Int.tdiv ((e1 : Int) * 60 - (s1 : Int) * 60) 60 = (e1 : Int) - s1 := by
    rw [show (e1 : Int) * 60 - (s1 : Int) * 60 = ((e1 : Int) - s1) * 60 by ring]
    exact Int.mul_tdiv_cancel _ (by norm_num)
  simp only [start_work_monitoring, h1, h2, h3, htdiv, total_target_minutes]
  norm_num

/-- At a tick with `remaining <= 0`, the loop body runs the completion
branch and breaks. -/
theorem monitorTick_complete (endSecs now : Int) (st : Option WorkStatus)
    (h : Int.tdiv (endSecs - now) 60 ≤ 0) :
    (monitorTick endSecs now st).events = completionEvents ∧
    (monitorTick endSecs now st).done = true := by
  unfold monitorTick
  rw [if_pos h]
  exact ⟨rfl, rfl⟩

/-- At a tick with `remaining > 0`, the loop body does not break. -/
theorem monitorTick_not_done (endSecs now : Int) (st : Option WorkStatus)
    (h : 0 < Int.tdiv (endSecs - now) 60) :
    (monitorTick endSecs now st).done = false := by
  unfold monitorTick
  rw [if_neg (by omega)]
  split <;> rfl

/-- A monitor tick leaves an occupied status slot occupied. -/
theorem monitorTick_state_some (endSecs now : Int) (s : WorkStatus) :
    ((monitorTick endSecs now (some s)).state).isSome = true := by
  simp only [monitorTick]
  split
  · rfl
  · split <;> rfl

/-- Every operation leaves an occupied status slot occupied. -/
theorem applyOp_preserves_some (σ : SysState) (op : Op)
    (h : σ.slot.isSome = true) : ((applyOp σ op).slot).isSome = true := by
  cases op with
  | startMonitoring i1 f1 i2 =>
    dsimp only [applyOp]
    unfold start_work_monitoring
    repeat' split
    all_goals first | exact h | rfl
  | tick endSecs now =>
    cases hslot : σ.slot with
    | none => rw [hslot] at h; exact absurd h (by simp)
    | some s =>
      dsimp only [applyOp]
      rw [hslot]
      exact monitorTick_state_some endSecs now s
  | getStatus => exact h
  | stopMonitoring => exact h

/-! ## The claims -/

/-- Claim C1: for every triple of valid 24-hour `HH:MM` times, the
session-plan computation in `start_work_monitoring` is deterministic given
the current day (it is a pure function of the parsed times) and yields
`endInstant = start2 + (480 - (end1 - start1))` minutes, with the initial
status's `end_time` being that instant formatted as `HH:MM`. -/
theorem session_plan_end_instant (st : Option WorkStatus)
    (inicio1 fim1 inicio2 : String) (s1 e1 s2 : Nat)
    (h1 : parseHHMM inicio1 = some s1) (h2 : parseHHMM fim1 = some e1)
    (h3 : parseHHMM inicio2 = some s2) :
    (start_work_monitoring st inicio1 fim1 inicio2).result = .ok () ∧
    (start_work_monitoring st inicio1 fim1 inicio2).spawned =
      some ((s2 : Int) * 60 + (480 - ((e1 : Int) - s1)) * 60) ∧
    (start_work_monitoring st inicio1 fim1 inicio2).newState =
      some ⟨480 - ((e1 : Int) - s1), false,
        formatHHMM ((s2 : Int) * 60 + (480 - ((e1 : Int) - s1)) * 60)⟩ := by
  rw [start_work_monitoring_ok st inicio1 fim1 inicio2 s1 e1 s2 h1 h2 h3]
  exact ⟨rfl, rfl, rfl⟩

/-- Claim C1, instantiated: `start1=08:00, end1=12:00, start2=13:00` yields
end `17:00` (240 remaining minutes, end instant 61200 s past midnight). -/
theorem session_plan_end_instant_witness :
    parseHHMM "08:00" = some 480 ∧
    (start_work_monitoring none "08:00" "12:00" "13:00").spawned = some 61200 ∧
    (start_work_monitoring none "08:00" "12:00" "13:00").newState =
      some ⟨240, false, "17:00"⟩ := by
  have h := session_plan_end_instant none "08:00" "12:00" "13:00" 480 720 780
    (by decide) (by decide) (by decide)
  refine ⟨by decide, ?_, ?_⟩
  · rw [h.2.1]; decide
  · rw [h.2.2]; decide

/-- Claim C2: on every poll tick of the monitor loop, given an existing
status in the shared slot, the monitor computes
`remaining = endInstant - now` in whole minutes truncating toward zero
(`Int.tdiv`, matching `Duration::num_minutes`) and writes a status with
`remaining_minutes = max remaining 0` and `is_complete = (remaining <= 0)`
(preserving `end_time`) to the shared state, in every branch of the loop. -/
theorem monitor_tick_writes_status (endSecs now : Int) (s : WorkStatus) :
    (monitorTick endSecs now (some s)).state =
      some ⟨max (Int.tdiv (endSecs - now) 60) 0,
        decide (Int.tdiv (endSecs - now) 60 ≤ 0), s.end_time⟩ := by
  simp only [monitorTick]
  split
  · rfl
  · split <;> rfl

/-- Claim C3: for every plaintext (a UTF-8 string, represented by its byte
sequence) and every 12-byte nonce drawn during encryption,
`decrypt_data (encrypt_data s)` returns `s`, for any cipher satisfying the
AEAD contract of `aes_gcm` under the fixed key. -/
theorem encrypt_then_decrypt_roundtrip (C : AeadCipher) (nonce data : List Nat)
    (hn : nonce.length = 12) (hnb : ∀ b ∈ nonce, b < 256)
    (hdb : ∀ b ∈ data, b < 256) :
    decrypt_data C (encrypt_data C nonce data) = .ok data := by
  unfold encrypt_data decrypt_data
  have hbytes : ∀ b ∈ nonce ++ C.encrypt nonce data, b < 256 := by
    intro b hb
    rcases List.mem_append.mp hb with hb | hb
    · exact hnb b hb
    · exact C.encrypt_bytes nonce data hdb b hb
  rw [base64_decode_encode (nonce ++ C.encrypt nonce data) hbytes]
  dsimp only
  rw [if_neg (by simp [hn])]
  rw [show (12 : Nat) = nonce.length from hn.symm, List.take_left, List.drop_left]
  rw [C.decrypt_encrypt nonce data hdb]

/-- Claim C3, instantiated at a concrete cipher, nonce and plaintext. -/
theorem encrypt_then_decrypt_roundtrip_witness :
    decrypt_data idCipher
      (encrypt_data idCipher (List.replicate 12 0) [104, 105]) = .ok [104, 105] :=
  encrypt_then_decrypt_roundtrip idCipher (List.replicate 12 0) [104, 105]
    (by decide) (by decide) (by decide)

/-- Claim C4: credential load returns the empty string (not an error) on
every call when no blob is stored (and when the stored value is not a JSON
string); when a string blob is present, malformed base64, a decoded blob
shorter than 12 bytes, and authentication-tag mismatch fail with three
pairwise-distinct errors, and a successful load from a present blob is
exactly the decryption's successful plaintext (a decryption failure is never
mapped to the empty "not configured" result). -/
theorem credential_load_error_taxonomy (C : AeadCipher) :
    (get_pontomais_config C none = .ok [] ∧
     get_pontomais_config C (some .nonString) = .ok []) ∧
    (∀ s, base64Decode s = none →
      get_pontomais_config C (some (.str s)) = .error .base64DecodeFailed) ∧
    (∀ s data, base64Decode s = some data → data.length < 12 →
      get_pontomais_config C (some (.str s)) = .error .invalidEncryptedData) ∧
    (∀ s data, base64Decode s = some data → ¬ data.length < 12 →
      C.decrypt (data.take 12) (data.drop 12) = none →
      get_pontomais_config C (some (.str s)) = .error .decryptionFailed) ∧
    (CredError.base64DecodeFailed ≠ CredError.invalidEncryptedData ∧
     CredError.base64DecodeFailed ≠ CredError.decryptionFailed ∧
     CredError.invalidEncryptedData ≠ CredError.decryptionFailed) ∧
    (∀ s pt, get_pontomais_config C (some (.str s)) = .ok pt →
      decrypt_data C s = .ok pt) := by
  refine ⟨⟨rfl, rfl⟩, ?_, ?_, ?_, ⟨by decide, by decide, by decide⟩, ?_⟩
  · intro s hs
    simp [get_pontomais_config, decrypt_data, hs]
  · intro s data hs hlen
    simp [get_pontomais_config, decrypt_data, hs, hlen]
  · intro s data hs hlen hdec
    simp [get_pontomais_config, decrypt_data, hs, hlen, hdec]
  · intro s pt h
    exact h

/-- Claim C4, instantiated: the empty store, a non-base64 blob, a too-short
blob, and a tag-mismatching blob, under a tag-checking cipher. -/
theorem credential_load_error_taxonomy_witness :
    get_pontomais_config tagCipher none = .ok [] ∧
    get_pontomais_config tagCipher (some (.str [33, 33, 33, 33])) =
      .error .base64DecodeFailed ∧
    get_pontomais_config tagCipher (some (.str (base64Encode [0]))) =
      .error .invalidEncryptedData ∧
    get_pontomais_config tagCipher
        (some (.str (base64Encode (List.replicate 13 0)))) =
      .error .decryptionFailed :=
  ⟨(credential_load_error_taxonomy tagCipher).1.1,
   (credential_load_error_taxonomy tagCipher).2.1 _ (by decide),
   (credential_load_error_taxonomy tagCipher).2.2.1 _ [0] (by decide) (by decide),
   (credential_load_error_taxonomy tagCipher).2.2.2.1 _ (List.replicate 13 0)
     (by decide) (by decide) (by decide)⟩

/-- Claim C5: `fetch_pontomais_hours` fails with an `ApiError` carrying the
HTTP status code and the raw response body exactly when the status is
non-success (no partial record list is returned); on success it returns the
`time` field of every entry of the first work-day of the parsed body, and an
empty sequence (not an error) when no work-day is present. -/
theorem fetch_hours_response_behaviour (status : Nat) (body : String)
    (parsed : Option TimeCardResponse) :
    (statusIsSuccess status = false →
      fetch_pontomais_hours status body parsed = .error (.apiError status body)) ∧
    (∀ r wd rest, statusIsSuccess status = true → parsed = some r →
      r.work_days = wd :: rest →
      fetch_pontomais_hours status body parsed =
        .ok (wd.time_cards.map (·.time))) ∧
    (∀ r, statusIsSuccess status = true → parsed = some r → r.work_days = [] →
      fetch_pontomais_hours status body parsed = .ok []) ∧
    (∀ c b, fetch_pontomais_hours status body parsed = .error (.apiError c b) →
      statusIsSuccess status = false ∧ c = status ∧ b = body) := by
  refine ⟨?_, ?_, ?_, ?_⟩
  · intro h
    simp [fetch_pontomais_hours, h]
  · intro r wd rest hs hp hw
    simp [fetch_pontomais_hours, hs, hp, hw]
  · intro r hs hp hw
    simp [fetch_pontomais_hours, hs, hp, hw]
  · intro c b h
    by_cases hs : statusIsSuccess status
    · unfold fetch_pontomais_hours at h
      rw [if_neg (by simp [hs])] at h
      cases hp : parsed with
      | none => rw [hp] at h; exact absurd h (by simp)
      | some r => rw [hp] at h; exact absurd h (by simp)
    · unfold fetch_pontomais_hours at h
      rw [if_pos (by simp_all)] at h
      injection h with h
      injection h with h1 h2
      exact ⟨by simp_all, h1.symm, h2.symm⟩

/-- Claim C5, instantiated: a 401 with body text fails with exactly that
status and body; a 200 whose body parses to one work-day with one card
yields that card's time; a 200 with no work-day yields the empty list. -/
theorem fetch_hours_response_behaviour_witness :
    fetch_pontomais_hours 401 "unauthorized" none =
      .error (.apiError 401 "unauthorized") ∧
    fetch_pontomais_hours 200 "body" (some ⟨[⟨[⟨"08:00"⟩]⟩]⟩) =
      .ok ["08:00"] ∧
    fetch_pontomais_hours 200 "body" (some ⟨[]⟩) = .ok [] :=
  ⟨(fetch_hours_response_behaviour 401 "unauthorized" none).1 (by decide),
   (fetch_hours_response_behaviour 200 "body" _).2.1 _ _ [] (by decide) rfl rfl,
   (fetch_hours_response_behaviour 200 "body" _).2.2.1 _ (by decide) rfl rfl⟩

/-- Claim C6: if any of the three time-of-day strings fails to parse as a
valid 24-hour `HH:MM` value, `start_work_monitoring` fails with a parse
error, spawns no background monitoring task, and leaves the shared status
slot unchanged. -/
theorem start_invalid_time_no_session (st : Option WorkStatus)
    (i1 f1 i2 : String)
    (h : parseHHMM i1 = none ∨ parseHHMM f1 = none ∨ parseHHMM i2 = none) :
    (start_work_monitoring st i1 f1 i2).newState = st ∧
    (start_work_monitoring st i1 f1 i2).spawned = none ∧
    ∃ msg, (start_work_monitoring st i1 f1 i2).result = .error msg := by
  unfold start_work_monitoring
  cases hp1 : parseHHMM i1 with
  | none => exact ⟨rfl, rfl, _, rfl⟩
  | some s1 =>
    cases hp2 : parseHHMM f1 with
    | none => exact ⟨rfl, rfl, _, rfl⟩
    | some e1 =>
      cases hp3 : parseHHMM i2 with
      | none => exact ⟨rfl, rfl, _, rfl⟩
      | some s2 => simp [hp1, hp2, hp3] at h

/-- Claim C6, instantiated: `inicio1 = "25:99"` (hour out of range) fails,
spawns nothing, and the empty slot stays "no active session". -/
theorem start_invalid_time_no_session_witness :
    (start_work_monitoring none "25:99" "12:00" "13:00").newState = none ∧
    (start_work_monitoring none "25:99" "12:00" "13:00").spawned = none ∧
    ∃ msg, (start_work_monitoring none "25:99" "12:00" "13:00").result =
      .error msg :=
  start_invalid_time_no_session none "25:99" "12:00" "13:00" (Or.inl (by decide))

/-- Claim C7: on the first poll tick where `remaining <= 0` the monitor
issues exactly the completion side effects (completion notification, window
surfacing, `work_complete` event) and terminates its loop: the run is
unchanged by any ticks scheduled after that one, and the tick's event log
after the earlier ticks is exactly `completionEvents`. -/
theorem monitor_completion_terminal (endSecs : Int) (pre post : List Int)
    (t : Int) (st : Option WorkStatus)
    (hpre : ∀ n ∈ pre, 0 < Int.tdiv (endSecs - n) 60)
    (ht : Int.tdiv (endSecs - t) 60 ≤ 0) :
    runMonitor endSecs (pre ++ t :: post) st = runMonitor endSecs (pre ++ [t]) st ∧
    (runMonitor endSecs (pre ++ t :: post) st).2 =
      (runMonitor endSecs pre st).2 ++ [completionEvents] := by
  induction pre generalizing st with
  | nil =>
    have hc := monitorTick_complete endSecs t st ht
    simp [runMonitor, hc.1, hc.2]
  | cons n pre ih =>
    have hnd := monitorTick_not_done endSecs n st (hpre n (by simp))
    have ih' := ih (monitorTick endSecs n st).state
      (fun m hm => hpre m (by simp [hm]))
    simp only [List.cons_append, runMonitor, hnd, Bool.false_eq_true, if_false,
      List.append_eq]
    exact ⟨by rw [ih'.1], by rw [ih'.2]⟩

/-- Claim C7, instantiated: one in-progress tick, the completing tick, and a
later scheduled tick that never runs. -/
theorem monitor_completion_terminal_witness :
    runMonitor 600 ([300] ++ 600 :: [9999]) none =
      runMonitor 600 ([300] ++ [600]) none ∧
    (runMonitor 600 ([300] ++ 600 :: [9999]) none).2 =
      (runMonitor 600 [300] none).2 ++ [completionEvents] :=
  monitor_completion_terminal 600 [300] [9999] 600 none (by decide) (by decide)

/-- Claim C8: on every poll tick with `0 < remaining <= 3` the monitor
issues exactly the warning side effects — the "quase acabando" notifications
carrying the current remaining-minute count, the window-surfacing request
and the `work_almost_complete` event — and does not break, so the alert is
level-triggered: it fires once per tick for as long as the condition holds. -/
theorem monitor_warning_band_fires (endSecs now : Int) (st : Option WorkStatus)
    (h1 : 0 < Int.tdiv (endSecs - now) 60)
    (h3 : Int.tdiv (endSecs - now) 60 ≤ 3) :
    (monitorTick endSecs now st).events =
      warningEvents (Int.tdiv (endSecs - now) 60) ∧
    (monitorTick endSecs now st).done = false := by
  unfold monitorTick
  rw [if_neg (by omega), if_pos h3]
  exact ⟨rfl, rfl⟩

/-- Claim C8, instantiated: a tick three minutes before the end fires the
warning with count 3 and the loop continues. -/
theorem monitor_warning_band_fires_witness :
    (monitorTick 180 0 none).events = warningEvents (Int.tdiv (180 - 0) 60) ∧
    (monitorTick 180 0 none).done = false :=
  monitor_warning_band_fires 180 0 none (by decide) (by decide)

/-- Claim C9: when the first period exceeds the 480-minute target,
`start_work_monitoring` does not reject the input: it succeeds, the initial
status carries the unclamped negative `remaining_minutes` with
`is_complete = false`, and the computed end instant lies before `start2`. -/
theorem start_overlong_period_unclamped (st : Option WorkStatus)
    (i1 f1 i2 : String) (s1 e1 s2 : Nat)
    (h1 : parseHHMM i1 = some s1) (h2 : parseHHMM f1 = some e1)
    (h3 : parseHHMM i2 = some s2) (hover : 480 < (e1 : Int) - s1) :
    (start_work_monitoring st i1 f1 i2).result = .ok () ∧
    (start_work_monitoring st i1 f1 i2).newState =
      some ⟨480 - ((e1 : Int) - s1), false,
        formatHHMM ((s2 : Int) * 60 + (480 - ((e1 : Int) - s1)) * 60)⟩ ∧
    480 - ((e1 : Int) - s1) < 0 ∧
    ∃ endInstant, (start_work_monitoring st i1 f1 i2).spawned = some endInstant ∧
      endInstant < (s2 : Int) * 60 := by
  rw [start_work_monitoring_ok st i1 f1 i2 s1 e1 s2 h1 h2 h3]
  exact ⟨rfl, rfl, by omega, _, rfl, by nlinarith⟩

/-- Claim C9, instantiated: `08:00`–`17:01` is a 541-minute first period, so
the committed status holds `-61` minutes, is not complete, and the end
instant `61140` s lies before `start2 = 64800` s. -/
theorem start_overlong_period_unclamped_witness :
    (start_work_monitoring none "08:00" "17:01" "18:00").result = .ok () ∧
    (start_work_monitoring none "08:00" "17:01" "18:00").newState =
      some ⟨480 - ((1021 : Int) - 480), false,
        formatHHMM ((1080 : Int) * 60 + (480 - ((1021 : Int) - 480)) * 60)⟩ ∧
    480 - ((1021 : Int) - 480) < 0 ∧
    ∃ endInstant,
      (start_work_monitoring none "08:00" "17:01" "18:00").spawned =
        some endInstant ∧ endInstant < (1080 : Int) * 60 :=
  start_overlong_period_unclamped none "08:00" "17:01" "18:00" 480 1021 1080
    (by decide) (by decide) (by decide) (by norm_num)

/-- Claim C10: once a status has been committed, no operation clears the
shared slot back to the empty "no active session" state: any sequence of
start calls, monitor ticks, status reads and stop calls keeps it occupied;
`get_work_status` only reads a snapshot, and `stop_work_monitoring` always
returns success while changing neither the slot nor the spawned tasks. -/
theorem status_slot_never_cleared :
    (∀ (ops : List Op) (σ : SysState), σ.slot.isSome = true →
      ((ops.foldl applyOp σ).slot).isSome = true) ∧
    (∀ σ : SysState, applyOp σ .getStatus = σ) ∧
    (∀ σ : SysState, applyOp σ .stopMonitoring = σ) ∧
    stop_work_monitoring = Except.ok () := by
  refine ⟨?_, fun σ => rfl, fun σ => rfl, rfl⟩
  intro ops
  induction ops with
  | nil => intro σ h; exact h
  | cons op rest ih =>
    intro σ h
    exact ih (applyOp σ op) (applyOp_preserves_some σ op h)

/-- Claim C10, instantiated: a committed status survives a status read, a
completing tick, a stop call and a failed restart. -/
theorem status_slot_never_cleared_witness :
    ((([Op.getStatus, Op.tick 600 900, Op.stopMonitoring,
        Op.startMonitoring "25:99" "12:00" "13:00"].foldl applyOp
          ⟨some ⟨240, false, "17:00"⟩, [61200]⟩).slot).isSome = true) :=
  status_slot_never_cleared.1 _ _ (by decide)

end NoPonto
